import Mathlib

set_option maxRecDepth 40000

/-! Shallow embedding of the exam-paper-generator application (src/app.py) and
proofs about its specification claims.

Python strings are modelled as Lean `String` (a list of unicode code points).
Python string primitives used by the program are embedded as explicit
executable functions below (`pyStrip` for `str.strip()` restricted to ASCII
whitespace, `pySplitNl` for `str.split` at a newline, `pySlice` for a
leading slice `s[:n]`, `pyLower` for `str.lower()`, `pyStartsWith` for
`str.startswith`, `removeHashes` for `str.replace` of the three-hash marker
by the empty string). -/

/-- ASCII whitespace as stripped by the Python strip method (unicode
whitespace beyond ASCII is not modelled; the program never produces it). -/
def pyIsSpace (c : Char) : Bool :=
  c = ' ' || c = '\t' || c = '\n' || c = '\r' || c = '\x0b' || c = '\x0c'

/-- Model of the Python strip method: drop whitespace from both ends. -/
def pyStrip (s : String) : String :=
  ⟨((s.data.dropWhile pyIsSpace).reverse.dropWhile pyIsSpace).reverse⟩

/-- Split a character list at newline characters; like the Python split
method with a newline separator, the result always has one piece more than
the number of newlines (so the empty string yields one empty piece). -/
def splitNlChars : List Char → List (List Char)
  | [] => [[]]
  | c :: cs =>
    let r := splitNlChars cs
    if c = '\n' then [] :: r
    else
      match r with
      | [] => [[c]]
      | l :: ls => (c :: l) :: ls

/-- Model of the Python split at a newline separator. -/
def pySplitNl (s : String) : List String :=
  (splitNlChars s.data).map String.mk

/-- Model of the Python leading slice s[:n] (by code points). -/
def pySlice (n : Nat) (s : String) : String := ⟨s.data.take n⟩

/-- Drop the first n code points of a string. -/
def pyDrop (n : Nat) (s : String) : String := ⟨s.data.drop n⟩

/-- Model of the Python lower method (ASCII letters; the only strings it is
applied to in the program are ASCII). -/
def pyLower (s : String) : String := ⟨s.data.map Char.toLower⟩

/-- Model of the Python startswith method. -/
def pyStartsWith (pre s : String) : Bool := pre.data.isPrefixOf s.data

/-- Model of replacing every occurrence of the three-hash marker by the
empty string, scanning left to right without overlap, exactly as the Python
replace method does in `line.replace` of the marker by the empty string. -/
def removeHashes : List Char → List Char
  | '#' :: '#' :: '#' :: rest => removeHashes rest
  | c :: rest => c :: removeHashes rest
  | [] => []

/-- String version of `removeHashes`. -/
def pyRemoveHashes (s : String) : String := ⟨removeHashes s.data⟩

/-! ## PDF renderer (generate_styled_pdf, src/app.py lines 24-105)

The reportlab document is modelled as the list of flowable elements handed
to doc.build: paragraphs carrying their text and the ParagraphStyle chosen
for them, and spacers carrying their height in hundredths of an inch
(0.25 inch after the title, 0.1 inch between lines). -/

/-- The five paragraph styles constructed in generate_styled_pdf. -/
inductive Style
  | titleStyle
  | questionHeaderStyle
  | questionStyle
  | optionStyle
  | bodyText
deriving DecidableEq, Repr

/-- A flowable element appended to the elements list. -/
inductive PdfElem
  | para (text : String) (style : Style)
  | spacer (hundredthsInch : Nat)
deriving DecidableEq, Repr

/-- Elements contributed by one line of the body (loop body, lines 85-100):
strip the line, classify by prefix (section header, question, MCQ option,
other non-empty), then append the small spacer unconditionally. -/
def lineElems (raw : String) : List PdfElem :=
  let line := pyStrip raw
  (if pyStartsWith "###" line then
    [PdfElem.para (pyStrip (pyRemoveHashes line)) Style.questionHeaderStyle]
  else if pyStartsWith "Q" line then
    [PdfElem.para line Style.questionStyle]
  else if pyStartsWith "A)" line || pyStartsWith "B)" line ||
      pyStartsWith "C)" line || pyStartsWith "D)" line then
    [PdfElem.para line Style.optionStyle]
  else if line ≠ "" then
    [PdfElem.para line Style.bodyText]
  else []) ++ [PdfElem.spacer 10]

/-- The for loop over the split lines. -/
def elemsOfLines : List String → List PdfElem
  | [] => []
  | l :: ls => lineElems l ++ elemsOfLines ls

/-- generate_styled_pdf: title paragraph, quarter-inch spacer, then the
per-line elements of the body split at newlines. -/
def generate_styled_pdf (title content : String) : List PdfElem :=
  PdfElem.para title Style.titleStyle :: PdfElem.spacer 25 ::
    elemsOfLines (pySplitNl content)

/-! Claim-side renderers for C1. `claimLineElemsOrig` follows the claim as
stated: the heading line keeps everything after the leading marker (only
the marker is stripped), and only classified (non-empty) lines are followed
by a spacer. `claimLineElemsAmended` follows the amended claim: every
occurrence of the marker is removed from a heading line, and every line,
empty ones included, is followed by a spacer. -/

/-- Per-line elements under the claim as stated. -/
def claimLineElemsOrig (raw : String) : List PdfElem :=
  let line := pyStrip raw
  if pyStartsWith "###" line then
    [PdfElem.para (pyStrip (pyDrop 3 line)) Style.questionHeaderStyle,
     PdfElem.spacer 10]
  else if pyStartsWith "Q" line then
    [PdfElem.para line Style.questionStyle, PdfElem.spacer 10]
  else if pyStartsWith "A)" line || pyStartsWith "B)" line ||
      pyStartsWith "C)" line || pyStartsWith "D)" line then
    [PdfElem.para line Style.optionStyle, PdfElem.spacer 10]
  else if line ≠ "" then
    [PdfElem.para line Style.bodyText, PdfElem.spacer 10]
  else []

/-- Loop of `claimLineElemsOrig`. -/
def claimElemsOrig : List String → List PdfElem
  | [] => []
  | l :: ls => claimLineElemsOrig l ++ claimElemsOrig ls

/-- Renderer described by claim C1 as stated. -/
def renderClaimOrig (title content : String) : List PdfElem :=
  PdfElem.para title Style.titleStyle :: PdfElem.spacer 25 ::
    claimElemsOrig (pySplitNl content)

/-- Per-line elements under the amended claim. -/
def claimLineElemsAmended (raw : String) : List PdfElem :=
  let line := pyStrip raw
  if pyStartsWith "###" line then
    [PdfElem.para (pyStrip (pyRemoveHashes line)) Style.questionHeaderStyle,
     PdfElem.spacer 10]
  else if pyStartsWith "Q" line then
    [PdfElem.para line Style.questionStyle, PdfElem.spacer 10]
  else if pyStartsWith "A)" line || pyStartsWith "B)" line ||
      pyStartsWith "C)" line || pyStartsWith "D)" line then
    [PdfElem.para line Style.optionStyle, PdfElem.spacer 10]
  else if line ≠ "" then
    [PdfElem.para line Style.bodyText, PdfElem.spacer 10]
  else [PdfElem.spacer 10]

/-- Loop of `claimLineElemsAmended`. -/
def claimElemsAmended : List String → List PdfElem
  | [] => []
  | l :: ls => claimLineElemsAmended l ++ claimElemsAmended ls

/-- Renderer described by the amended claim C1. -/
def renderClaimAmended (title content : String) : List PdfElem :=
  PdfElem.para title Style.titleStyle :: PdfElem.spacer 25 ::
    claimElemsAmended (pySplitNl content)

/-! ## Document extraction (DocumentProcessor.extract_text, lines 112-134)

The per-format library extraction (pdfplumber page-text join for pdf, the
paragraph-text join for docx, the slide-shape-text join for pptx, the
pandas table rendering for xlsx, and the utf-8 decode for plain text) is
abstracted as an oracle field on the uploaded file: `Except.ok s` is the
text the library call produces, `Except.error e` is the message of the
exception it raises. The try/except of the source turns a raised exception
into the error string. -/

/-- An uploaded file: its declared media type and the outcome of the
library extraction the corresponding branch would perform on it. -/
structure UploadedFile where
  ftype : String
  extracted : Except String String

/-- The body of one supported branch inside the try block: return the
library text, or let the except clause convert an exception. -/
def libExtract (f : UploadedFile) : String :=
  match f.extracted with
  | Except.ok s => s
  | Except.error e => "Error processing file: " ++ e

/-- The five declared media types the if/elif chain recognises. -/
def supportedTypes : List String :=
  ["application/pdf",
   "application/vnd.openxmlformats-officedocument.wordprocessingml.document",
   "application/vnd.openxmlformats-officedocument.presentationml.presentation",
   "application/vnd.openxmlformats-officedocument.spreadsheetml.sheet",
   "text/plain"]

/-- extract_text: dispatch on the declared media type, falling through to
the unsupported-format sentinel. -/
def extract_text (f : UploadedFile) : String :=
  if f.ftype = "application/pdf" then libExtract f
  else if f.ftype = "application/vnd.openxmlformats-officedocument.wordprocessingml.document" then
    libExtract f
  else if f.ftype = "application/vnd.openxmlformats-officedocument.presentationml.presentation" then
    libExtract f
  else if f.ftype = "application/vnd.openxmlformats-officedocument.spreadsheetml.sheet" then
    libExtract f
  else if f.ftype = "text/plain" then libExtract f
  else "Unsupported file format"

/-! ## Question generation (DocumentProcessor.generate_questions, lines 136-239)

The completion endpoint is modelled as a function from the user prompt to
either the text of the first choice (`Except.ok`) or the message of the
exception the call raises (`Except.error`). The fixed system message, the
model identifier and the temperature are constants of the request and are
absorbed into that function. `generate_questions` returns the string the
Python function returns together with the list of prompts actually sent to
the client (so the number of network calls is observable). The Python
local variable prompt is bound only by the three if/elif template arms; for
any other label the guarded call raises an UnboundLocalError while building
the message list, before the client is invoked, and the except clause turns
it into an error string. -/

/-- Completion client: prompt to response text or raised-exception message. -/
def CompletionClient : Type := String → Except String String

/-- The content-length budget spliced into every template (the literal 4000
in content slicing inside each f-string). -/
def MAX_PROMPT_CHARS : Nat := 4000

/-- The optional focus-topic clause of each template: the conditional
expression inside the f-strings, with the empty string as the falsy case. -/
def topicClause (topic : String) : String :=
  if topic = "" then "" else "- Focus Topic: " ++ topic

/-- Text of the MCQ template before the content hole. -/
def mcqPromptPre : String :=
  "\n            MULTIPLE CHOICE QUESTIONS (MCQs) GENERATION INSTRUCTIONS:\n\n            Context:\n            - Source Content: "

/-- Text of the MCQ template after the content hole. -/
def mcqPromptPost (num : Nat) (difficulty topic : String) : String :=
  "\n            " ++ topicClause topic ++ "\n            - Difficulty Level: " ++ difficulty ++
  "\n\n            STRICT MCQ FORMATTING REQUIREMENTS:\n            - Generate " ++ toString num ++
  " UNIQUE Multiple Choice Questions\n            - Each question MUST have EXACTLY 4 options\n            \n            MCQ FORMAT:\n            Q[number]. [Precise, knowledge-testing question]\n            \n            Options (EXACTLY 4, precisely formatted and new line after each option):\n            A) [Option 1 then start a new line]\n            B) [Option 2 then start a new line]\n            C) [Option 3 then start a new line]\n            D) [Option 4 then start a new line]\n            \n       \n\n            CRITICAL GUIDELINES:\n            - Derive questions ONLY from provided content\n            - Ensure NO overlap between questions\n            - Options must be academically credible\n            - CORRECT answer must be unambiguously right\n            - Maintain academic language\n            - Complexity matches specified difficulty level\n            "

/-- The MCQ prompt f-string. -/
def mcqPrompt (content : String) (num : Nat) (difficulty topic : String) : String :=
  mcqPromptPre ++ pySlice MAX_PROMPT_CHARS content ++ mcqPromptPost num difficulty topic

/-- Text of the short-question template before the content hole. -/
def shortPromptPre : String :=
  "\n            SHORT ANSWER QUESTIONS GENERATION INSTRUCTIONS:\n\n            Context:\n            - Source Content: "

/-- Text of the short-question template after the content hole. -/
def shortPromptPost (num : Nat) (difficulty topic : String) : String :=
  "\n            " ++ topicClause topic ++ "\n            - Difficulty Level: " ++ difficulty ++
  "\n\n            STRICT SHORT QUESTION FORMATTING REQUIREMENTS:\n            - Generate " ++ toString num ++
  " UNIQUE Short Answer Questions\n            - Each question requires a focused, concise response (2-3 sentences)\n            \n            SHORT QUESTION FORMAT:\n            Q[number]. [Precise, concept-testing question requiring brief, specific answer]\n\n            CRITICAL GUIDELINES:\n            - Questions must be answerable using ONLY the provided content\n            - Focus on key concepts, definitions, explanations\n            - Avoid yes/no questions\n            - Ensure questions test understanding, not mere recall\n            - Each question should require analysis or explanation\n            - Maintain academic rigor\n            - Complexity matches specified difficulty level\n            "

/-- The short-question prompt f-string. -/
def shortPrompt (content : String) (num : Nat) (difficulty topic : String) : String :=
  shortPromptPre ++ pySlice MAX_PROMPT_CHARS content ++ shortPromptPost num difficulty topic

/-- Text of the long-question template before the content hole. -/
def longPromptPre : String :=
  "\n            LONG ANSWER QUESTIONS GENERATION INSTRUCTIONS:\n\n            Context:\n            - Source Content: "

/-- Text of the long-question template after the content hole. -/
def longPromptPost (num : Nat) (difficulty topic : String) : String :=
  "\n            " ++ topicClause topic ++ "\n            - Difficulty Level: " ++ difficulty ++
  "\n\n            STRICT LONG QUESTION FORMATTING REQUIREMENTS:\n            - Generate " ++ toString num ++
  " UNIQUE Comprehensive Questions\n            - Each question requires an in-depth, multi-part response\n            \n            LONG QUESTION FORMAT:\n            Q[number]. [Complex, analytical question requiring comprehensive explanation]\n\n\n            CRITICAL GUIDELINES:\n            - Questions must demand critical thinking\n            - Require synthesis of information from content\n            - Encourage analytical and evaluative responses\n            - Include potential for original insight\n            - Ensure questions are NOT simply information regurgitation\n            - Complexity significantly higher than short questions\n            - Match specified difficulty level precisely\n            "

/-- The long-question prompt f-string. -/
def longPrompt (content : String) (num : Nat) (difficulty topic : String) : String :=
  longPromptPre ++ pySlice MAX_PROMPT_CHARS content ++ longPromptPost num difficulty topic

/-- The three question-type labels recognised by the if/elif chain. -/
def supportedLabels : List String :=
  ["multiple choice questions", "short questions", "long questions"]

/-- The if/elif chain binding the prompt local variable; none means the
variable is left unbound. -/
def promptOf (content qtype : String) (num : Nat) (difficulty topic : String) : Option String :=
  if qtype = "multiple choice questions" then
    some (mcqPrompt content num difficulty topic)
  else if qtype = "short questions" then
    some (shortPrompt content num difficulty topic)
  else if qtype = "long questions" then
    some (longPrompt content num difficulty topic)
  else none

/-- Single-quote character, used below to render the CPython message text. -/
def quoteChar : String := ⟨[Char.ofNat 39]⟩

/-- The str rendering of the UnboundLocalError CPython raises when the
local named prompt is referenced before any template arm assigned it. The
wording is an interpreter detail that varies with the CPython version (the
value below is the 3.11 and later wording; 3.10 and earlier word it as the
local variable being referenced before assignment); no theorem below
depends on this wording, only on the fixed prefix the except clause
prepends to it. -/
def unboundLocalMsg : String :=
  "cannot access local variable " ++ quoteChar ++ "prompt" ++ quoteChar ++
    " where it is not associated with a value"

/-- generate_questions: the empty-content guard, the template chain, then
the guarded completion call with its except clause. The second component
lists the prompts sent to the client (each successful dispatch sends one). -/
def generate_questions (client : CompletionClient) (content qtype : String)
    (num : Nat) (difficulty topic : String) : String × List String :=
  if pyStrip content = "" then
    ("No content provided for question generation.", [])
  else
    match promptOf content qtype num difficulty topic with
    | none => ("Error generating questions: " ++ unboundLocalMsg, [])
    | some p =>
      match client p with
      | Except.ok r => (r, [p])
      | Except.error e => ("Error generating questions: " ++ e, [p])

/-- The value generate_questions returns once a prompt was dispatched. -/
def clientResult (client : CompletionClient) (p : String) : String :=
  match client p with
  | Except.ok r => r
  | Except.error e => "Error generating questions: " ++ e

/-! ## Paper assembly and the main flow (main, lines 242-338)

The three checkboxes are processed in the fixed order mcq, short, long, so
the settings dict iterates in that order restricted to the selected types.
Selection is modelled as an optional per-type setting. -/

/-- A question type tag, in checkbox order. -/
inductive QType
  | mcq
  | short
  | long
deriving DecidableEq, Repr

/-- The fixed insertion/iteration order of the settings dict. -/
def qtypeOrder : List QType := [QType.mcq, QType.short, QType.long]

/-- Per-type settings collected by the sliders and selectboxes. -/
structure QSettings where
  num_questions : Nat
  difficulty : String

/-- The display-name mapping inside the generation loop. -/
def displayName : QType → String
  | QType.mcq => "Multiple Choice Questions"
  | QType.short => "Short Questions"
  | QType.long => "Long Questions"

/-- The key set of the settings dict, in its insertion order. -/
def selectedTypes (settings : QType → Option QSettings) : List QType :=
  qtypeOrder.filter (fun t => (settings t).isSome)

/-- One iteration of the generation loop: generate questions for the type
with its lowercased display name, wrap as a header block, and record the
prompts sent. -/
def blockOf (client : CompletionClient) (content topic : String)
    (t : QType) (s : QSettings) : String × List String :=
  let qr := generate_questions client content (pyLower (displayName t))
    s.num_questions s.difficulty topic
  ("### " ++ displayName t ++ "\n\n" ++ qr.1, qr.2)

/-- The paper_content list built by the loop, one entry per selected type
in dict order, paired with the prompts each iteration sent. -/
def paperBlocks (client : CompletionClient) (content : String)
    (settings : QType → Option QSettings) (topic : String) : List (String × List String) :=
  qtypeOrder.filterMap (fun t => (settings t).map (blockOf client content topic t))

/-- The combined paper (blocks joined by a blank line) together with the
full list of prompts sent to the completion client. -/
def assemble (client : CompletionClient) (content : String)
    (settings : QType → Option QSettings) (topic : String) : String × List String :=
  (String.intercalate "\n\n" ((paperBlocks client content settings topic).map Prod.fst),
   ((paperBlocks client content settings topic).map Prod.snd).flatten)

/-- The prompt generate_questions builds for each type tag. -/
def promptForType (content : String) (num : Nat) (difficulty topic : String) : QType → String
  | QType.mcq => mcqPrompt content num difficulty topic
  | QType.short => shortPrompt content num difficulty topic
  | QType.long => longPrompt content num difficulty topic

/-- Completion client stub answering every prompt. -/
def clientOkW : CompletionClient := fun _ => Except.ok "OK"

/-- Witness settings: all three types selected with distinct counts. -/
def stAllW : QType → QSettings
  | QType.mcq => { num_questions := 5, difficulty := "Easy" }
  | QType.short => { num_questions := 3, difficulty := "Easy" }
  | QType.long => { num_questions := 2, difficulty := "Easy" }

/-- Witness selection map: every type selected. -/
def settingsAllW : QType → Option QSettings := fun t => some (stAllW t)

/-- Witness client: fails exactly on the short-question prompt of the
witness run, answers everything else. -/
def clientFailShortW : CompletionClient := fun p =>
  if p = promptForType "Some source text." 3 "Easy" "" QType.short then
    Except.error "boom"
  else Except.ok "OK"

/-! ## Credential handling and the overall pipeline (main, lines 242-338) -/

/-- The credential assignment of main (line 247): a string literal written
directly in the source. -/
def api_key : String := "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"

/-- Credential acquisition viewed as a function of the process environment:
main never reads the environment and always produces the literal, so the
result is constant and never absent. -/
def obtainApiKey (_env : String → Option String) : Option String := some api_key

/-- Outcome of one generation run of main, as shown to the user. -/
inductive RunOutcome
  | errorStop (msg : String)
  | warnStop (msg : String)
  | paper (text : String)
deriving DecidableEq, Repr

/-- The generation flow of main after upload: join the per-file extraction
results with a blank line, stop with an error if the joined text is empty
or whitespace-only (the Python check of falsy or stripped-empty combined
text), warn and stop if no question type is selected, otherwise assemble
the paper. The second component lists all prompts sent to the completion
client during the run. -/
def mainPipeline (client : CompletionClient) (files : List UploadedFile)
    (settings : QType → Option QSettings) (topic : String) : RunOutcome × List String :=
  let combined := String.intercalate "\n\n" (files.map extract_text)
  if pyStrip combined = "" then
    (RunOutcome.errorStop "No text could be extracted from the uploaded documents.", [])
  else if selectedTypes settings = [] then
    (RunOutcome.warnStop "Please select at least one question type.", [])
  else
    (RunOutcome.paper (assemble client combined settings topic).1,
     (assemble client combined settings topic).2)

/-! ## Theorems settling the claims -/

lemma lineElems_eq_amended (raw : String) :
    lineElems raw = claimLineElemsAmended raw := by
  simp only [lineElems, claimLineElemsAmended]
  split_ifs <;> rfl

lemma elemsOfLines_eq_amended (ls : List String) :
    elemsOfLines ls = claimElemsAmended ls := by
  induction ls with
  | nil => rfl
  | cons l ls ih =>
    simp [elemsOfLines, claimElemsAmended, lineElems_eq_amended, ih]

/-- C1 counterexample: on the body consisting of a heading line containing a
second interior three-hash marker, a blank line, and a plain line, the
program removes the interior marker as well and emits a spacer for the
blank line, so the element sequence differs from the one the claim as
stated describes. -/
theorem C1_counterexample :
    generate_styled_pdf "T" "###a###b\n\nx" ≠ renderClaimOrig "T" "###a###b\n\nx" := by
  decide

/-- C1 (amended): for every title and body, the renderer emits the title
paragraph and a spacer, then processes the lines of the body in order,
classifying each stripped line by prefix priority (heading with every
three-hash marker removed, then question, then option, then non-empty body
text) and emitting a spacer after every line, empty lines included; and on
the concrete example body the element sequence is the title paragraph,
spacer, heading paragraph, spacer, question paragraph, spacer, and the four
option paragraphs in order A, B, C, D, each followed by a spacer. -/
theorem C1_render_amended :
    (∀ title content,
      generate_styled_pdf title content = renderClaimAmended title content) ∧
    generate_styled_pdf "Exam Paper" "### Section\nQ1. foo?\nA) x\nB) y\nC) z\nD) w" =
      [PdfElem.para "Exam Paper" Style.titleStyle, PdfElem.spacer 25,
       PdfElem.para "Section" Style.questionHeaderStyle, PdfElem.spacer 10,
       PdfElem.para "Q1. foo?" Style.questionStyle, PdfElem.spacer 10,
       PdfElem.para "A) x" Style.optionStyle, PdfElem.spacer 10,
       PdfElem.para "B) y" Style.optionStyle, PdfElem.spacer 10,
       PdfElem.para "C) z" Style.optionStyle, PdfElem.spacer 10,
       PdfElem.para "D) w" Style.optionStyle, PdfElem.spacer 10] := by
  constructor
  · intro title content
    simp [generate_styled_pdf, renderClaimAmended, elemsOfLines_eq_amended]
  · decide

lemma isPrefixOf_append_self : ∀ l r : List Char, l.isPrefixOf (l ++ r) = true := by
  intro l r
  induction l with
  | nil => simp [List.isPrefixOf]
  | cons c cs ih => simp [List.isPrefixOf, ih]

lemma pyStartsWith_append (a b : String) : pyStartsWith a (a ++ b) = true := by
  simp [pyStartsWith, String.data_append, isPrefixOf_append_self]

/-- C4: for a file of a supported declared media type whose extraction
raises, extract_text returns the error string built from the exception
message, which begins with the fixed prefix; extraction never raises (it
is a total function). -/
theorem C4_extract_catches (f : UploadedFile) (m : String)
    (hs : f.ftype ∈ supportedTypes) (he : f.extracted = Except.error m) :
    extract_text f = "Error processing file: " ++ m ∧
    pyStartsWith "Error processing file: " (extract_text f) = true := by
  have hlib : libExtract f = "Error processing file: " ++ m := by
    simp [libExtract, he]
  simp only [supportedTypes, List.mem_cons, List.not_mem_nil, or_false] at hs
  rcases hs with h | h | h | h | h <;>
    simp [extract_text, h, hlib, pyStartsWith_append]

/-- C4 witness at a concrete corrupt pdf file. -/
theorem C4_extract_catches_witness :
    (({ ftype := "application/pdf", extracted := Except.error "bad xref" } : UploadedFile).ftype ∈ supportedTypes ∧
      ({ ftype := "application/pdf", extracted := Except.error "bad xref" } : UploadedFile).extracted = Except.error "bad xref") ∧
    (extract_text { ftype := "application/pdf", extracted := Except.error "bad xref" } =
        "Error processing file: " ++ "bad xref" ∧
      pyStartsWith "Error processing file: "
        (extract_text { ftype := "application/pdf", extracted := Except.error "bad xref" }) = true) :=
  ⟨⟨by decide, rfl⟩,
   C4_extract_catches { ftype := "application/pdf", extracted := Except.error "bad xref" }
     "bad xref" (by decide) rfl⟩

/-- C9: for a file whose declared media type is none of the five supported
ones, extract_text returns exactly the unsupported-format sentinel. -/
theorem C9_unsupported_sentinel (f : UploadedFile)
    (h : f.ftype ∉ supportedTypes) :
    extract_text f = "Unsupported file format" := by
  simp only [supportedTypes, List.mem_cons, List.not_mem_nil, or_false, not_or] at h
  obtain ⟨h1, h2, h3, h4, h5⟩ := h
  simp [extract_text, h1, h2, h3, h4, h5]

/-- C9 witness at a concrete png upload. -/
theorem C9_unsupported_sentinel_witness :
    (({ ftype := "image/png", extracted := Except.ok "x" } : UploadedFile).ftype ∉ supportedTypes) ∧
    extract_text { ftype := "image/png", extracted := Except.ok "x" } = "Unsupported file format" :=
  ⟨by decide,
   C9_unsupported_sentinel { ftype := "image/png", extracted := Except.ok "x" } (by decide)⟩

/-- C5: for non-empty content and a supported label, generate_questions
sends exactly one prompt, that prompt embeds the slice of the content at
the MAX_PROMPT_CHARS budget between fixed template text, the slice is the
content itself when the content is within the budget, and is a block of
exactly MAX_PROMPT_CHARS leading characters of the content when the
content is longer. -/
theorem C5_prompt_truncation (client : CompletionClient)
    (content qtype difficulty topic : String) (n : Nat)
    (hc : pyStrip content ≠ "") (hq : qtype ∈ supportedLabels) :
    ∃ p pre post,
      generate_questions client content qtype n difficulty topic =
        (clientResult client p, [p]) ∧
      p = pre ++ pySlice MAX_PROMPT_CHARS content ++ post ∧
      (content.length ≤ MAX_PROMPT_CHARS → pySlice MAX_PROMPT_CHARS content = content) ∧
      (MAX_PROMPT_CHARS < content.length →
        (pySlice MAX_PROMPT_CHARS content).length = MAX_PROMPT_CHARS ∧
        ∃ rest, content.data = (pySlice MAX_PROMPT_CHARS content).data ++ rest) := by
  have hshort : content.length ≤ MAX_PROMPT_CHARS → pySlice MAX_PROMPT_CHARS content = content := by
    intro h
    cases content with
    | mk data =>
      have h2 : data.length ≤ MAX_PROMPT_CHARS := h
      exact congrArg String.mk (List.take_of_length_le h2)
  have hlong : MAX_PROMPT_CHARS < content.length →
      (pySlice MAX_PROMPT_CHARS content).length = MAX_PROMPT_CHARS ∧
      ∃ rest, content.data = (pySlice MAX_PROMPT_CHARS content).data ++ rest := by
    intro h
    have h2 : MAX_PROMPT_CHARS < content.data.length := h
    constructor
    · show (content.data.take MAX_PROMPT_CHARS).length = MAX_PROMPT_CHARS
      rw [List.length_take]
      exact min_eq_left (Nat.le_of_lt h2)
    · exact ⟨content.data.drop MAX_PROMPT_CHARS,
        (List.take_append_drop MAX_PROMPT_CHARS content.data).symm⟩
  simp only [supportedLabels, List.mem_cons, List.not_mem_nil, or_false] at hq
  rcases hq with h | h | h
  · refine ⟨mcqPrompt content n difficulty topic, mcqPromptPre,
      mcqPromptPost n difficulty topic, ?_, rfl, hshort, hlong⟩
    unfold generate_questions promptOf
    rw [if_neg hc, h, if_pos rfl]
    cases hr : client (mcqPrompt content n difficulty topic) <;>
      simp [clientResult, hr]
  · refine ⟨shortPrompt content n difficulty topic, shortPromptPre,
      shortPromptPost n difficulty topic, ?_, rfl, hshort, hlong⟩
    unfold generate_questions promptOf
    rw [if_neg hc, h, if_neg (by decide), if_pos rfl]
    cases hr : client (shortPrompt content n difficulty topic) <;>
      simp [clientResult, hr]
  · refine ⟨longPrompt content n difficulty topic, longPromptPre,
      longPromptPost n difficulty topic, ?_, rfl, hshort, hlong⟩
    unfold generate_questions promptOf
    rw [if_neg hc, h, if_neg (by decide), if_neg (by decide), if_pos rfl]
    cases hr : client (longPrompt content n difficulty topic) <;>
      simp [clientResult, hr]

/-- C5 witness at a concrete short content and the short-question label. -/
theorem C5_prompt_truncation_witness :
    (pyStrip "hello" ≠ "" ∧ "short questions" ∈ supportedLabels) ∧
    (∃ p pre post,
      generate_questions (fun _ => Except.ok "") "hello" "short questions" 2 "Easy" "" =
        (clientResult (fun _ => Except.ok "") p, [p]) ∧
      p = pre ++ pySlice MAX_PROMPT_CHARS "hello" ++ post ∧
      (String.length "hello" ≤ MAX_PROMPT_CHARS → pySlice MAX_PROMPT_CHARS "hello" = "hello") ∧
      (MAX_PROMPT_CHARS < String.length "hello" →
        (pySlice MAX_PROMPT_CHARS "hello").length = MAX_PROMPT_CHARS ∧
        ∃ rest, ("hello").data = (pySlice MAX_PROMPT_CHARS "hello").data ++ rest)) :=
  ⟨⟨by decide, by decide⟩,
   C5_prompt_truncation (fun _ => Except.ok "") "hello" "short questions" "Easy" "" 2
     (by decide) (by decide)⟩

/-- C8: with empty or whitespace-only content, generate_questions returns
the fixed sentinel and sends no prompt to the client at all, for every
question type, count, difficulty and topic. -/
theorem C8_empty_content_sentinel (client : CompletionClient)
    (content qtype difficulty topic : String) (n : Nat)
    (h : pyStrip content = "") :
    generate_questions client content qtype n difficulty topic =
      ("No content provided for question generation.", []) := by
  simp [generate_questions, h]

/-- C8 witness at whitespace-only content. -/
theorem C8_empty_content_sentinel_witness :
    pyStrip "   " = "" ∧
    generate_questions (fun _ => Except.ok "text") "   " "short questions" 5 "Hard" "" =
      ("No content provided for question generation.", []) :=
  ⟨by decide,
   C8_empty_content_sentinel (fun _ => Except.ok "text") "   " "short questions" "Hard" "" 5
     (by decide)⟩

/-- C10: for non-empty content and a label outside the three supported
ones, no template arm binds the prompt local, so the guarded call raises an
UnboundLocalError before the client is invoked: generate_questions sends no
prompt at all, no exception escapes (the function is total), and the result
is the caught exception rendered behind the fixed error-generating prefix
(the wording after the prefix is the interpreter message and is not
asserted, since it varies by CPython version). -/
theorem C10_unknown_label_error (client : CompletionClient)
    (content qtype difficulty topic : String) (n : Nat)
    (hc : pyStrip content ≠ "") (hq : qtype ∉ supportedLabels) :
    (generate_questions client content qtype n difficulty topic).2 = [] ∧
    pyStartsWith "Error generating questions: "
      (generate_questions client content qtype n difficulty topic).1 = true := by
  simp only [supportedLabels, List.mem_cons, List.not_mem_nil, or_false, not_or] at hq
  obtain ⟨h1, h2, h3⟩ := hq
  have he : generate_questions client content qtype n difficulty topic =
      ("Error generating questions: " ++ unboundLocalMsg, []) := by
    unfold generate_questions promptOf
    rw [if_neg hc, if_neg h1, if_neg h2, if_neg h3]
  exact ⟨by rw [he], by
    rw [he]
    exact pyStartsWith_append "Error generating questions: " unboundLocalMsg⟩

/-- C10 witness at a concrete unsupported label. -/
theorem C10_unknown_label_error_witness :
    (pyStrip "abc" ≠ "" ∧ "essay questions" ∉ supportedLabels) ∧
    ((generate_questions (fun _ => Except.ok "text") "abc" "essay questions" 4 "Easy" "").2 = [] ∧
      pyStartsWith "Error generating questions: "
        (generate_questions (fun _ => Except.ok "text") "abc" "essay questions" 4 "Easy" "").1 = true) :=
  ⟨⟨by decide, by decide⟩,
   C10_unknown_label_error (fun _ => Except.ok "text") "abc" "essay questions" "Easy" "" 4
     (by decide) (by decide)⟩

lemma gqLabel (client : CompletionClient) (content topic difficulty : String)
    (num : Nat) (hc : pyStrip content ≠ "") (t : QType) :
    generate_questions client content (pyLower (displayName t)) num difficulty topic =
      (clientResult client (promptForType content num difficulty topic t),
       [promptForType content num difficulty topic t]) := by
  cases t
  case mcq =>
    have hl : pyLower (displayName QType.mcq) = "multiple choice questions" := by decide
    rw [hl]
    unfold generate_questions promptOf
    rw [if_neg hc, if_pos rfl]
    cases hr : client (mcqPrompt content num difficulty topic) <;>
      simp [promptForType, clientResult, hr]
  case short =>
    have hl : pyLower (displayName QType.short) = "short questions" := by decide
    rw [hl]
    unfold generate_questions promptOf
    rw [if_neg hc, if_neg (by decide), if_pos rfl]
    cases hr : client (shortPrompt content num difficulty topic) <;>
      simp [promptForType, clientResult, hr]
  case long =>
    have hl : pyLower (displayName QType.long) = "long questions" := by decide
    rw [hl]
    unfold generate_questions promptOf
    rw [if_neg hc, if_neg (by decide), if_neg (by decide), if_pos rfl]
    cases hr : client (longPrompt content num difficulty topic) <;>
      simp [promptForType, clientResult, hr]

lemma blockOf_eq (client : CompletionClient) (content topic : String)
    (hc : pyStrip content ≠ "") (t : QType) (s : QSettings) :
    blockOf client content topic t s =
      ("### " ++ displayName t ++ "\n\n" ++
        clientResult client (promptForType content s.num_questions s.difficulty topic t),
       [promptForType content s.num_questions s.difficulty topic t]) := by
  unfold blockOf
  rw [gqLabel client content topic s.difficulty s.num_questions hc t]

lemma mem_selected {settings : QType → Option QSettings} {t : QType}
    (s : QSettings) (h : settings t = some s) : t ∈ selectedTypes settings := by
  have ht : t ∈ qtypeOrder := by cases t <;> simp [qtypeOrder]
  exact List.mem_filter.mpr ⟨ht, by simp [h]⟩

lemma paperBlocks_eq_map (client : CompletionClient) (content topic : String)
    (settings : QType → Option QSettings) (st : QType → QSettings)
    (hc : pyStrip content ≠ "")
    (hst : ∀ t, t ∈ selectedTypes settings → settings t = some (st t)) :
    paperBlocks client content settings topic =
      (selectedTypes settings).map (fun t =>
        ("### " ++ displayName t ++ "\n\n" ++
          clientResult client (promptForType content (st t).num_questions (st t).difficulty topic t),
         [promptForType content (st t).num_questions (st t).difficulty topic t])) := by
  have hst' : ∀ t a, settings t = some a → a = st t := by
    intro t a h
    have h2 := hst t (mem_selected a h)
    rw [h] at h2
    exact Option.some.inj h2
  have aux : ∀ l : List QType,
      l.filterMap (fun t => (settings t).map (blockOf client content topic t)) =
        (l.filter (fun t => (settings t).isSome)).map (fun t =>
          ("### " ++ displayName t ++ "\n\n" ++
            clientResult client
              (promptForType content (st t).num_questions (st t).difficulty topic t),
           [promptForType content (st t).num_questions (st t).difficulty topic t])) := by
    intro l
    induction l with
    | nil => rfl
    | cons t ts ih =>
      cases h : settings t with
      | none => simp [h, ih]
      | some a =>
        have e := hst' t a h
        subst e
        simp [h, ih, blockOf_eq client content topic hc]
  exact aux qtypeOrder

lemma flatten_singleton_map {α β : Type} (f : α → β) (l : List α) :
    (l.map (fun x => [f x])).flatten = l.map f := by
  induction l with
  | nil => rfl
  | cons x xs ih => simp [ih]

/-- C2: for non-empty content and a non-empty selection, the loop issues
exactly one completion call per selected type, iterating mcq, short, long
restricted to the selected types: the list of prompts sent is exactly one
per selected type in that order, and the combined paper is the blank-line
join, in that order, of one block per selected type, each block formed as
the header line with the display name followed by that call result. -/
theorem C2_assemble_sections (client : CompletionClient) (content topic : String)
    (settings : QType → Option QSettings) (st : QType → QSettings)
    (hc : pyStrip content ≠ "")
    (hne : selectedTypes settings ≠ [])
    (hst : ∀ t, t ∈ selectedTypes settings → settings t = some (st t)) :
    (assemble client content settings topic).2 =
      (selectedTypes settings).map
        (fun t => promptForType content (st t).num_questions (st t).difficulty topic t) ∧
    (assemble client content settings topic).1 =
      String.intercalate "\n\n"
        ((selectedTypes settings).map (fun t =>
          "### " ++ displayName t ++ "\n\n" ++
            clientResult client
              (promptForType content (st t).num_questions (st t).difficulty topic t))) := by
  have hp := paperBlocks_eq_map client content topic settings st hc hst
  constructor
  · show ((paperBlocks client content settings topic).map Prod.snd).flatten = _
    rw [hp, List.map_map]
    exact flatten_singleton_map _ _
  · show String.intercalate "\n\n"
        ((paperBlocks client content settings topic).map Prod.fst) = _
    rw [hp, List.map_map]
    rfl

/-- C2 witness: all three types selected over concrete content. -/
theorem C2_assemble_sections_witness :
    (pyStrip "Some source text." ≠ "" ∧ selectedTypes settingsAllW ≠ []) ∧
    ((assemble clientOkW "Some source text." settingsAllW "").2 =
      (selectedTypes settingsAllW).map
        (fun t => promptForType "Some source text." (stAllW t).num_questions (stAllW t).difficulty "" t) ∧
    (assemble clientOkW "Some source text." settingsAllW "").1 =
      String.intercalate "\n\n"
        ((selectedTypes settingsAllW).map (fun t =>
          "### " ++ displayName t ++ "\n\n" ++
            clientResult clientOkW
              (promptForType "Some source text." (stAllW t).num_questions (stAllW t).difficulty "" t)))) :=
  ⟨⟨by decide, by decide⟩,
   C2_assemble_sections clientOkW "Some source text." "" settingsAllW stAllW
     (by decide) (by decide) (fun t _ => rfl)⟩

/-- C3: if the client fails (raises) on the prompt of exactly one selected
type and answers every other selected type, the paper still has one block
per selected type in order; the failing block carries the error string
built from the exception message, every other block carries the client
output unchanged. -/
theorem C3_one_failure_isolated (client : CompletionClient) (content topic : String)
    (settings : QType → Option QSettings) (st : QType → QSettings)
    (f : QType) (m : String) (outs : QType → String)
    (hc : pyStrip content ≠ "")
    (hst : ∀ t, t ∈ selectedTypes settings → settings t = some (st t))
    (hf : f ∈ selectedTypes settings)
    (hfail : client (promptForType content (st f).num_questions (st f).difficulty topic f) =
      Except.error m)
    (hok : ∀ t, t ∈ selectedTypes settings → t ≠ f →
      client (promptForType content (st t).num_questions (st t).difficulty topic t) =
        Except.ok (outs t)) :
    (paperBlocks client content settings topic).map Prod.fst =
      (selectedTypes settings).map (fun t =>
        if t = f then
          "### " ++ displayName f ++ "\n\n" ++ ("Error generating questions: " ++ m)
        else
          "### " ++ displayName t ++ "\n\n" ++ outs t) := by
  rw [paperBlocks_eq_map client content topic settings st hc hst, List.map_map]
  refine List.map_congr_left ?_
  intro t ht
  by_cases hteq : t = f
  · subst hteq
    show "### " ++ displayName t ++ "\n\n" ++
        clientResult client
          (promptForType content (st t).num_questions (st t).difficulty topic t) =
      if t = t then
        "### " ++ displayName t ++ "\n\n" ++ ("Error generating questions: " ++ m)
      else "### " ++ displayName t ++ "\n\n" ++ outs t
    rw [if_pos rfl]
    unfold clientResult
    rw [hfail]
  · show "### " ++ displayName t ++ "\n\n" ++
        clientResult client
          (promptForType content (st t).num_questions (st t).difficulty topic t) =
      if t = f then
        "### " ++ displayName f ++ "\n\n" ++ ("Error generating questions: " ++ m)
      else "### " ++ displayName t ++ "\n\n" ++ outs t
    rw [if_neg hteq]
    unfold clientResult
    rw [hok t ht hteq]

/-- C3 witness: three selected types, the short-question call fails. -/
theorem C3_one_failure_isolated_witness :
    (pyStrip "Some source text." ≠ "" ∧
      QType.short ∈ selectedTypes settingsAllW ∧
      clientFailShortW
        (promptForType "Some source text." (stAllW QType.short).num_questions
          (stAllW QType.short).difficulty "" QType.short) = Except.error "boom") ∧
    (paperBlocks clientFailShortW "Some source text." settingsAllW "").map Prod.fst =
      (selectedTypes settingsAllW).map (fun t =>
        if t = QType.short then
          "### " ++ displayName QType.short ++ "\n\n" ++ ("Error generating questions: " ++ "boom")
        else
          "### " ++ displayName t ++ "\n\n" ++ (fun _ : QType => "OK") t) :=
  ⟨⟨by decide, by decide, rfl⟩,
   C3_one_failure_isolated clientFailShortW "Some source text." "" settingsAllW stAllW
     QType.short "boom" (fun _ => "OK")
     (by decide) (fun t _ => rfl) (by decide)
     rfl
     (by
       intro t ht hne
       cases t
       case mcq => rfl
       case short => exact absurd rfl hne
       case long => rfl)⟩

/-- C6 counterexample: in a process environment with no variables at all
(every lookup is none, so in particular no API key variable is set), the
system does not refuse: it still obtains the hardcoded literal credential,
contradicting the claim that the key is sourced from the environment and
that its absence stops the run. -/
theorem C6_counterexample :
    (fun _ => (none : Option String)) "GROQ_API_KEY" = none ∧
    obtainApiKey (fun _ => none) = some api_key ∧
    obtainApiKey (fun _ => none) ≠ none :=
  ⟨rfl, rfl, by simp [obtainApiKey]⟩

/-- C6 (amended): the API key is a hardcoded constant of the source; for
every process environment the system obtains that same literal credential,
never consults the environment and never refuses, so the completion client
is always constructed with this constant key. -/
theorem C6_hardcoded_key (env : String → Option String) :
    obtainApiKey env = some api_key ∧ (obtainApiKey env).isSome = true :=
  ⟨rfl, rfl⟩

/-- C7: whenever the blank-line join of the per-file extraction results is
empty or whitespace-only, the pipeline stops with the user-facing error
message and sends no prompt at all to the completion client. -/
theorem C7_empty_input_stops (client : CompletionClient) (files : List UploadedFile)
    (settings : QType → Option QSettings) (topic : String)
    (h : pyStrip (String.intercalate "\n\n" (files.map extract_text)) = "") :
    mainPipeline client files settings topic =
      (RunOutcome.errorStop "No text could be extracted from the uploaded documents.", []) := by
  simp [mainPipeline, h]

/-- C7 witness: a single plain-text file from which nothing is extracted. -/
theorem C7_empty_input_stops_witness :
    pyStrip (String.intercalate "\n\n"
      (([{ ftype := "text/plain", extracted := Except.ok "" }] : List UploadedFile).map extract_text)) = "" ∧
    mainPipeline clientOkW [{ ftype := "text/plain", extracted := Except.ok "" }] settingsAllW "" =
      (RunOutcome.errorStop "No text could be extracted from the uploaded documents.", []) :=
  ⟨by decide,
   C7_empty_input_stops clientOkW [{ ftype := "text/plain", extracted := Except.ok "" }]
     settingsAllW "" (by decide)⟩
